import Mathlib

/-!
Shallow embedding of the WMS client in `server/utils.py` (class `WMSClient`
plus `BoundingBox`): the capabilities cache, the capabilities XML parser,
the GetMap / GetFeatureInfo URL parameter builders, the coordinate
converter, and the layer search / lookup operations, together with
theorems checking the specification's claims about them.

Modelling conventions:
* Python floats are modelled as rationals (`ℚ`); Python ints as `Int`;
  Python `str` as `String`; Python `None`-able strings as `Option String`.
* The XML tree produced by `xml.etree.ElementTree` is modelled by `Elem`
  (tag, attributes, text, children).  Namespace prefixes (`wms:`) are
  dropped: tags are the local names.
* Stateful methods become explicit state passing on `WMSState`; wall-clock
  reads (`datetime.now()`) become explicit `Int` timestamp arguments
  (seconds); the HTTP GET plus XML decode performed by `get_capabilities`
  becomes an oracle argument `fetch : Except String Capabilities`, whose
  `error` case covers both transport and parse failure.
* Fallible Python operations (attribute access on `None`) return `Except`.
-/

namespace WMS

/-- An XML element as seen through `xml.etree.ElementTree`: a tag, an
attribute list, optional text content (`ElementTree` reports `None` when an
element has no text), and the list of child elements in document order. -/
inductive Elem : Type where
  | mk (tag : String) (attrs : List (String × String)) (text : Option String)
      (children : List Elem)

def Elem.tag : Elem → String
  | .mk t _ _ _ => t

def Elem.attrs : Elem → List (String × String)
  | .mk _ a _ _ => a

def Elem.text : Elem → Option String
  | .mk _ _ x _ => x

def Elem.children : Elem → List Elem
  | .mk _ _ _ cs => cs

/-- `elem.find('tag', ns)`: the first direct child with the given tag. -/
def Elem.findChild (e : Elem) (t : String) : Option Elem :=
  e.children.find? (fun c => c.tag = t)

/-- `elem.findall('tag', ns)`: all direct children with the given tag. -/
def Elem.findChildren (e : Elem) (t : String) : List Elem :=
  e.children.filter (fun c => c.tag = t)

mutual

/-- All proper descendants of an element in document (preorder) order. -/
def Elem.descendants : Elem → List Elem
  | .mk _ _ _ cs => Elem.descList cs

/-- Descendants-with-self of each element of a list, concatenated. -/
def Elem.descList : List Elem → List Elem
  | [] => []
  | c :: cs => c :: Elem.descendants c ++ Elem.descList cs

end

/-- `root.findall('.//tag', ns)`: every descendant with the tag, in
document order. -/
def Elem.findAllDesc (e : Elem) (t : String) : List Elem :=
  e.descendants.filter (fun c => c.tag = t)

/-- `root.find('.//tag', ns)`: the first descendant with the tag. -/
def Elem.findDesc (e : Elem) (t : String) : Option Elem :=
  e.descendants.find? (fun c => c.tag = t)

/-- `elem.get(key, dflt)`: attribute lookup with a default. -/
def Elem.getAttr (e : Elem) (key dflt : String) : String :=
  match e.attrs.find? (fun p => p.1 = key) with
  | some p => p.2
  | none => dflt

/-- Python truthiness of a `str`-or-`None` value: `None` and the empty
string are falsy, any other string is truthy. -/
def truthy : Option String → Bool
  | none => false
  | some s => !s.isEmpty

/-- The dict built by `WMSClient._parse_layer`. -/
structure Layer where
  name : Option String
  title : Option String
  abstract : Option String
  crs_list : List String
  queryable : Bool
deriving DecidableEq

/-- The dict built by `WMSClient._parse_capabilities`. -/
structure Capabilities where
  title : Option String
  abstract : Option String
  version : String
  layers : List Layer
  formats : List String
  info_formats : List String
  cached_at : Int
deriving DecidableEq

/-- `WMSClient._parse_layer(layer_elem, namespaces)`. -/
def parse_layer (layer_elem : Elem) : Layer :=
  let name : Option String :=
    match layer_elem.findChild "Name" with
    | some ne => ne.text
    | none => some ""
  let title : Option String :=
    match layer_elem.findChild "Title" with
    | some te => te.text
    | none => name
  let abstract : Option String :=
    match layer_elem.findChild "Abstract" with
    | some ae => ae.text
    | none => none
  let crs_list : List String :=
    (layer_elem.findChildren "CRS").filterMap
      (fun c => if truthy c.text then c.text else none)
  let queryable : Bool := decide (layer_elem.getAttr "queryable" "0" = "1")
  ⟨name, title, abstract, crs_list, queryable⟩

/-- The `for layer_elem in layer_elems:` loop of `_parse_capabilities`:
a layer element is parsed and appended exactly when its first `Name`
child exists and has truthy text. -/
def collect_layers : List Elem → List Layer
  | [] => []
  | le :: les =>
    match le.findChild "Name" with
    | some ne =>
      if truthy ne.text then parse_layer le :: collect_layers les
      else collect_layers les
    | none => collect_layers les

/-- Text extraction used for the format lists: keep only truthy texts. -/
def truthy_texts (es : List Elem) : List String :=
  es.filterMap (fun f => if truthy f.text then f.text else none)

/-- `WMSClient._parse_capabilities(xml_content, version)` on an
already-decoded XML tree.  `now` is the wall clock read for `cached_at`.
(`ET.fromstring` failure on undecodable bytes is part of the fetch oracle
of `get_capabilities`.) -/
def parse_capabilities (root : Elem) (version : String) (now : Int) :
    Capabilities :=
  let title : Option String :=
    match root.findDesc "Service" with
    | some se =>
      match se.findChild "Title" with
      | some te => te.text
      | none => some "BGS Soil Data WMS"
    | none => some "BGS Soil Data WMS"
  let abstract : Option String :=
    match root.findDesc "Service" with
    | some se =>
      match se.findChild "Abstract" with
      | some ae => ae.text
      | none => none
    | none => none
  let formats : List String :=
    truthy_texts
      ((root.descendants.filter (fun e => e.tag = "GetMap")).flatMap
        (fun gm => gm.findChildren "Format"))
  let info_formats : List String :=
    truthy_texts
      ((root.descendants.filter (fun e => e.tag = "GetFeatureInfo")).flatMap
        (fun gf => gf.findChildren "Format"))
  { title := title
    abstract := abstract
    version := version
    layers := collect_layers (root.findAllDesc "Layer")
    formats := formats
    info_formats := info_formats
    cached_at := now }

/-- The mutable cache fields of a `WMSClient` instance
(`_capabilities_cache`, `_cache_timestamp`). -/
structure WMSState where
  capabilities_cache : Option Capabilities
  cache_timestamp : Option Int
deriving DecidableEq

/-- `_cache_duration = timedelta(hours=1)`, in seconds. -/
def cache_duration : Int := 3600

/-- The cache-hit test of `get_capabilities`: `not force_refresh and
self._capabilities_cache and self._cache_timestamp and now - ts < dur`.
(A parsed capabilities dict is never empty, so its truthiness is
`isSome`.) -/
def cache_hit (st : WMSState) (force_refresh : Bool) (now : Int) : Bool :=
  match st.capabilities_cache, st.cache_timestamp with
  | some _, some ts => !force_refresh && decide (now - ts < cache_duration)
  | _, _ => false

set_option linter.unusedVariables false in
/-- `WMSClient.get_capabilities(version, force_refresh)`.  `now` is the
wall clock at the freshness check, `tDone` the wall clock at the cache
store after a successful fetch; `fetch` is the combined outcome of the
HTTP GET and `_parse_capabilities` (its `error` case covers transport and
parse failure alike, both of which the source re-raises).  Returns the
result together with the post-call state.  The `version` argument feeds
only the request URL, i.e. the `fetch` oracle. -/
def get_capabilities (st : WMSState) (version : String)
    (force_refresh : Bool) (now tDone : Int)
    (fetch : Except String Capabilities) :
    Except String Capabilities × WMSState :=
  match st.capabilities_cache, st.cache_timestamp with
  | some caps, some ts =>
    if !force_refresh && decide (now - ts < cache_duration) then
      (Except.ok caps, st)
    else
      match fetch with
      | Except.ok c => (Except.ok c, ⟨some c, some tDone⟩)
      | Except.error e => (Except.error e, st)
  | _, _ =>
    match fetch with
    | Except.ok c => (Except.ok c, ⟨some c, some tDone⟩)
    | Except.error e => (Except.error e, st)

/-- `BoundingBox` from `server/utils.py`, coordinates as rationals. -/
structure BoundingBox where
  min_x : ℚ
  min_y : ℚ
  max_x : ℚ
  max_y : ℚ
  crs : String
deriving DecidableEq

/-- Stand-in for Python's float formatting inside the f-string that builds
the `bbox` value; any fixed rendering of the coordinate suffices for the
claims, which are about field order and comma-joining. -/
def py_float_repr (q : ℚ) : String :=
  toString q.num ++ "/" ++ toString q.den

/-- The f-string `"{bbox.min_x},{bbox.min_y},{bbox.max_x},{bbox.max_y}"`. -/
def bbox_str (b : BoundingBox) : String :=
  py_float_repr b.min_x ++ "," ++ py_float_repr b.min_y ++ "," ++
    py_float_repr b.max_x ++ "," ++ py_float_repr b.max_y

/-- Python's `sep.join(parts)`. -/
def py_join (sep : String) : List String → String
  | [] => ""
  | [s] => s
  | s :: rest => s ++ sep ++ py_join sep rest

/-- `layers: Union[str, List[str]]` followed by
`if isinstance(layers, list): layers = ",".join(layers)`. -/
def join_layers : Sum String (List String) → String
  | Sum.inl s => s
  | Sum.inr l => py_join "," l

/-- `str(transparent).lower()`. -/
def py_bool_str (b : Bool) : String :=
  if b then "true" else "false"

/-- `WMSClient.get_map(...)`: the query-parameter dictionary of the
generated URL, as an association list in Python-dict insertion order (the
source returns `base_url + "?" + urllib.parse.urlencode(params)`, and
`urlencode` serializes the dict in exactly this order; the claims are
about the parameters, so the percent-encoding step is not modelled). -/
def get_map (layers : Sum String (List String)) (bbox : BoundingBox)
    (width height : Int) (format : String) (version : String)
    (crs : Option String) (transparent : Bool) (bgcolor : String) :
    List (String × String) :=
  let layersStr := join_layers layers
  let crsVal := match crs with
    | none => bbox.crs
    | some c => c
  let base : List (String × String) :=
    [("service", "WMS"), ("request", "GetMap"), ("version", version),
     ("layers", layersStr), ("width", toString width),
     ("height", toString height), ("format", format),
     ("transparent", py_bool_str transparent), ("bgcolor", bgcolor)]
  if version = "1.3.0" then
    base ++ [("crs", crsVal), ("bbox", bbox_str bbox)]
  else
    base ++ [("srs", crsVal), ("bbox", bbox_str bbox)]

/-- `WMSClient.get_feature_info(...)`: the query-parameter dictionary of
the URL it builds, in insertion order (the subsequent HTTP GET returning
the response body is outside the URL-construction claims). -/
def get_feature_info (layers : Sum String (List String))
    (bbox : BoundingBox) (x y : Int) (width height : Int)
    (info_format : String) (version : String) (crs : Option String)
    (feature_count : Int) : List (String × String) :=
  let layersStr := join_layers layers
  let crsVal := match crs with
    | none => bbox.crs
    | some c => c
  let base : List (String × String) :=
    [("service", "WMS"), ("request", "GetFeatureInfo"),
     ("version", version), ("layers", layersStr),
     ("query_layers", layersStr), ("width", toString width),
     ("height", toString height), ("info_format", info_format),
     ("feature_count", toString feature_count), ("x", toString x),
     ("y", toString y)]
  if version = "1.3.0" then
    base ++ [("crs", crsVal), ("bbox", bbox_str bbox)]
  else
    base ++ [("srs", crsVal), ("bbox", bbox_str bbox)]

/-- Value of a query parameter in a built parameter list (keys here are
unique, so this is exactly Python dict lookup). -/
def lookup_param (ps : List (String × String)) (k : String) :
    Option String :=
  (ps.find? (fun p => p.1 = k)).map (fun p => p.2)

/-- `WMSClient.convert_coordinates(x, y, source_crs, target_crs)`. -/
def convert_coordinates (x y : ℚ) (source_crs target_crs : String) :
    ℚ × ℚ :=
  if source_crs = target_crs then (x, y)
  else if source_crs = "EPSG:4326" ∧ target_crs = "EPSG:27700" then
    (x * 111319.9, y * 111319.9)
  else if source_crs = "EPSG:27700" ∧ target_crs = "EPSG:4326" then
    (x / 111319.9, y / 111319.9)
  else (x, y)

/-- The scan loop of `WMSClient.get_layer_by_name`: first layer whose
`name` equals the argument (`layer.get('name') == name`; a `None` name
never equals a string). -/
def find_layer : List Layer → String → Option Layer
  | [], _ => none
  | l :: ls, n => if l.name = some n then some l else find_layer ls n

/-- `WMSClient.get_layer_by_name(name)` on the catalog obtained from
`get_capabilities` (the source awaits `self.get_capabilities()` first;
claims C1/C2 cover that call, this takes its successful result). -/
def get_layer_by_name (caps : Capabilities) (name : String) :
    Option Layer :=
  find_layer caps.layers name

/-- Boolean test: the first list is an initial segment of the second. -/
def chars_prefixOf : List Char → List Char → Bool
  | [], _ => true
  | _ :: _, [] => false
  | a :: as, b :: bs => a = b && chars_prefixOf as bs

/-- Boolean test: the first list occurs contiguously inside the second. -/
def chars_infixOf (needle : List Char) : List Char → Bool
  | [] => needle.isEmpty
  | b :: bs => chars_prefixOf needle (b :: bs) || chars_infixOf needle bs

/-- Python's `needle in hay` on strings: contiguous substring test. -/
def py_in (needle hay : String) : Bool :=
  chars_infixOf needle.data hay.data

/-- Python's `str.lower()` (ASCII case folding suffices here). -/
def py_str_lower (s : String) : String :=
  String.mk (s.data.map Char.toLower)

/-- `value.lower()` on a `str`-or-`None` value: raises `AttributeError`
when the value is `None`. -/
def py_lower : Option String → Except String String
  | none => Except.error "AttributeError"
  | some s => Except.ok (py_str_lower s)

/-- The loop of `WMSClient.search_layers`: for each layer take
`layer.get('name', '').lower()` and `layer.get('title', '').lower()`
(both keys are always present in a parsed layer dict, so the default
never applies and a `None` value raises), take the abstract lowered when
truthy else `''`, and keep the layer when the lowered query is contained
in any of the three. -/
def search_layers_go (ql : String) : List Layer →
    Except String (List Layer)
  | [] => Except.ok []
  | l :: ls =>
    match py_lower l.name with
    | Except.error e => Except.error e
    | Except.ok nameL =>
      match py_lower l.title with
      | Except.error e => Except.error e
      | Except.ok titleL =>
        let abstractL : String :=
          if truthy l.abstract then py_str_lower (l.abstract.getD "")
          else ""
        match search_layers_go ql ls with
        | Except.error e => Except.error e
        | Except.ok rest =>
          Except.ok
            (if py_in ql nameL || py_in ql titleL || py_in ql abstractL
             then l :: rest else rest)

/-- `WMSClient.search_layers(query)` on the catalog obtained from
`get_capabilities`. -/
def search_layers (caps : Capabilities) (query : String) :
    Except String (List Layer) :=
  search_layers_go (py_str_lower query) caps.layers

/-! ## Theorems about the claims -/

/-- C5: `convert_coordinates(x, y, source_crs, target_crs)` never fails
(it is a total function) and returns `(x, y)` when the two CRS strings
are equal, `(x * 111319.9, y * 111319.9)` for `"EPSG:4326" → "EPSG:27700"`,
`(x / 111319.9, y / 111319.9)` for `"EPSG:27700" → "EPSG:4326"`, and
`(x, y)` unchanged for every other pair of CRS strings (the source only
logs a warning there). -/
theorem convert_coordinates_cases (x y : ℚ) (s t : String) :
    convert_coordinates x y s s = (x, y)
    ∧ convert_coordinates x y "EPSG:4326" "EPSG:27700" =
        (x * 111319.9, y * 111319.9)
    ∧ convert_coordinates x y "EPSG:27700" "EPSG:4326" =
        (x / 111319.9, y / 111319.9)
    ∧ (s ≠ t → ¬(s = "EPSG:4326" ∧ t = "EPSG:27700") →
        ¬(s = "EPSG:27700" ∧ t = "EPSG:4326") →
        convert_coordinates x y s t = (x, y)) := by
  refine ⟨?_, ?_, ?_, ?_⟩
  · simp [convert_coordinates]
  · simp [convert_coordinates]
  · simp [convert_coordinates]
  · intro h1 h2 h3
    simp [convert_coordinates, h1, h2, h3]

/-- C5 witness: the theorem applied at concrete inputs, including the
"every other pair" case with its hypotheses discharged. -/
theorem convert_coordinates_cases_witness :
    convert_coordinates 1 2 "EPSG:3857" "EPSG:4326" = (1, 2) :=
  (convert_coordinates_cases 1 2 "EPSG:3857" "EPSG:4326").2.2.2
    (by decide) (by decide) (by decide)

/-- C3: in both `get_map` and `get_feature_info`, the CRS query parameter
is keyed `crs` exactly when `version = "1.3.0"` and `srs` for every other
version string (with value `crs` defaulting to `bbox.crs`), and the
`bbox` parameter is always the comma-joined string
`min_x,min_y,max_x,max_y` in that field order — identical for every
version, i.e. no lon/lat axis-order swap for 1.3.0. -/
theorem crs_srs_bbox_params (layers : Sum String (List String))
    (bbox : BoundingBox) (x y width height : Int)
    (format info_format version : String) (crs : Option String)
    (transparent : Bool) (bgcolor : String) (feature_count : Int) :
    lookup_param
        (get_map layers bbox width height format version crs transparent
          bgcolor) "crs" =
      (if version = "1.3.0" then some (crs.getD bbox.crs) else none)
    ∧ lookup_param
        (get_map layers bbox width height format version crs transparent
          bgcolor) "srs" =
      (if version = "1.3.0" then none else some (crs.getD bbox.crs))
    ∧ lookup_param
        (get_map layers bbox width height format version crs transparent
          bgcolor) "bbox" =
      some (py_float_repr bbox.min_x ++ "," ++ py_float_repr bbox.min_y ++
        "," ++ py_float_repr bbox.max_x ++ "," ++ py_float_repr bbox.max_y)
    ∧ lookup_param
        (get_feature_info layers bbox x y width height info_format version
          crs feature_count) "crs" =
      (if version = "1.3.0" then some (crs.getD bbox.crs) else none)
    ∧ lookup_param
        (get_feature_info layers bbox x y width height info_format version
          crs feature_count) "srs" =
      (if version = "1.3.0" then none else some (crs.getD bbox.crs))
    ∧ lookup_param
        (get_feature_info layers bbox x y width height info_format version
          crs feature_count) "bbox" =
      some (py_float_repr bbox.min_x ++ "," ++ py_float_repr bbox.min_y ++
        "," ++ py_float_repr bbox.max_x ++ "," ++ py_float_repr bbox.max_y) := by
  by_cases hv : version = "1.3.0" <;>
    cases crs <;>
      simp [get_map, get_feature_info, lookup_param, hv, bbox_str,
        List.find?, Option.getD]

/-- C4: a list-valued `layers` argument is serialized by comma-joining in
order without deduplication, a string passes through unchanged, and
`get_feature_info` sets `query_layers` to exactly the serialized `layers`
value. -/
theorem layers_serialization (names : List String) (s : String)
    (layers : Sum String (List String)) (bbox : BoundingBox)
    (x y width height : Int) (format info_format version : String)
    (crs : Option String) (transparent : Bool) (bgcolor : String)
    (feature_count : Int) :
    lookup_param
        (get_map (Sum.inr names) bbox width height format version crs
          transparent bgcolor) "layers" = some (py_join "," names)
    ∧ lookup_param
        (get_map (Sum.inl s) bbox width height format version crs
          transparent bgcolor) "layers" = some s
    ∧ lookup_param
        (get_feature_info (Sum.inr names) bbox x y width height
          info_format version crs feature_count) "layers" =
      some (py_join "," names)
    ∧ lookup_param
        (get_feature_info (Sum.inl s) bbox x y width height info_format
          version crs feature_count) "layers" = some s
    ∧ lookup_param
        (get_feature_info layers bbox x y width height info_format version
          crs feature_count) "query_layers" =
      lookup_param
        (get_feature_info layers bbox x y width height info_format version
          crs feature_count) "layers" := by
  by_cases hv : version = "1.3.0" <;>
    simp [get_map, get_feature_info, lookup_param, hv, join_layers,
      List.find?]

/-- C1: when `force_refresh` is false, a cached value exists, and its age
is under one hour, `get_capabilities` returns the cached value with the
state unchanged, for every requested version string and independently of
the fetch oracle (so no HTTP request is consulted); in every other case
(`cache_hit` false: forced refresh, absent cache, or age at least one
hour) a fetch is performed and, on success, its result is returned and
replaces the cache together with the store-time timestamp. -/
theorem get_capabilities_cache_policy (st : WMSState) (version : String)
    (force_refresh : Bool) (now tDone : Int)
    (fetch : Except String Capabilities) :
    (∀ caps ts, st.capabilities_cache = some caps →
      st.cache_timestamp = some ts → force_refresh = false →
      now - ts < cache_duration →
      get_capabilities st version force_refresh now tDone fetch =
        (Except.ok caps, st))
    ∧ (cache_hit st force_refresh now = false → ∀ c,
        fetch = Except.ok c →
        get_capabilities st version force_refresh now tDone fetch =
          (Except.ok c, ⟨some c, some tDone⟩)) := by
  constructor
  · intro caps ts hc ht hf hlt
    cases st with
    | mk cc cts =>
      cases cc <;> cases cts <;> simp_all [get_capabilities]
  · intro hmiss c hc
    subst hc
    cases st with
    | mk cc cts =>
      cases cc <;> cases cts <;> simp_all [get_capabilities, cache_hit]

/-- C1 witness: a 30-minute-old cache entry is served unchanged even for
a different requested version and an erroring fetch oracle, and a
61-minute-old entry is refreshed from a successful fetch. -/
theorem get_capabilities_cache_policy_witness :
    get_capabilities
        ⟨some ⟨some "T", none, "1.3.0", [], [], [], 0⟩, some 0⟩ "1.1.1"
        false 1800 1800 (Except.error "down") =
      (Except.ok ⟨some "T", none, "1.3.0", [], [], [], 0⟩,
        ⟨some ⟨some "T", none, "1.3.0", [], [], [], 0⟩, some 0⟩)
    ∧ get_capabilities
        ⟨some ⟨some "T", none, "1.3.0", [], [], [], 0⟩, some 0⟩ "1.3.0"
        false 3660 3665
        (Except.ok ⟨some "U", none, "1.3.0", [], [], [], 3660⟩) =
      (Except.ok ⟨some "U", none, "1.3.0", [], [], [], 3660⟩,
        ⟨some ⟨some "U", none, "1.3.0", [], [], [], 3660⟩, some 3665⟩) :=
  ⟨(get_capabilities_cache_policy _ "1.1.1" false 1800 1800 _).1
      ⟨some "T", none, "1.3.0", [], [], [], 0⟩ 0 rfl rfl rfl (by decide),
    (get_capabilities_cache_policy _ "1.3.0" false 3660 3665 _).2
      (by decide) _ rfl⟩

/-- C2: if the fetch (HTTP GET or XML parse) fails, `get_capabilities`
propagates the failure and leaves both the cached value and the cache
timestamp exactly as they were (stated for every state and time at which
the fetch path is reached, i.e. whenever the cache-hit test fails). -/
theorem get_capabilities_error_preserves_cache (st : WMSState)
    (version : String) (force_refresh : Bool) (now tDone : Int)
    (e : String) (hmiss : cache_hit st force_refresh now = false) :
    get_capabilities st version force_refresh now tDone
        (Except.error e) = (Except.error e, st) := by
  cases st with
  | mk cc cts =>
    cases cc <;> cases cts <;> simp_all [get_capabilities, cache_hit]

/-- C2 witness: a failed fetch on a 2-hour-stale cache returns the error
and leaves the old cache entry and timestamp in place. -/
theorem get_capabilities_error_preserves_cache_witness :
    get_capabilities
        ⟨some ⟨some "T", none, "1.3.0", [], [], [], 0⟩, some 0⟩ "1.3.0"
        false 7200 7205 (Except.error "timeout") =
      (Except.error "timeout",
        ⟨some ⟨some "T", none, "1.3.0", [], [], [], 0⟩, some 0⟩) :=
  get_capabilities_error_preserves_cache _ "1.3.0" false 7200 7205
    "timeout" (by decide)

/-- Helper: the scan returns `none` exactly when no layer's name equals
the query. -/
theorem find_layer_none_iff (ls : List Layer) (n : String) :
    find_layer ls n = none ↔ ∀ l ∈ ls, l.name ≠ some n := by
  induction ls with
  | nil => simp [find_layer]
  | cons l ls ih =>
    by_cases h : l.name = some n <;> simp [find_layer, h, ih]

/-- Helper: a successful scan returns the first matching layer. -/
theorem find_layer_some (ls : List Layer) (n : String) (l : Layer)
    (h : find_layer ls n = some l) :
    l.name = some n ∧
      ∃ pre post, ls = pre ++ l :: post ∧ ∀ p ∈ pre, p.name ≠ some n := by
  induction ls with
  | nil => simp [find_layer] at h
  | cons hd tl ih =>
    by_cases hh : hd.name = some n
    · rw [find_layer, if_pos hh] at h
      obtain rfl : hd = l := by injection h
      exact ⟨hh, [], tl, rfl, by simp⟩
    · rw [find_layer, if_neg hh] at h
      obtain ⟨h1, pre, post, heq, hpre⟩ := ih h
      refine ⟨h1, hd :: pre, post, by simp [heq], ?_⟩
      intro p hp
      rcases List.mem_cons.mp hp with hp | hp
      · exact hp ▸ hh
      · exact hpre p hp

/-- Layers of the spec's search example ("Soil Depth Data" /
"Bedrock Geology"), used as concrete witnesses. -/
def soilLayer : Layer :=
  ⟨some "soil_depth", some "Soil Depth Data", none, [], true⟩

def geologyLayer : Layer :=
  ⟨some "geology", some "Bedrock Geology", none, [], false⟩

def demoCaps : Capabilities :=
  ⟨some "T", none, "1.3.0", [soilLayer, geologyLayer], [], [], 0⟩

/-- C9: on an available catalog, `get_layer_by_name` returns `none` —
never an error, the function is total — exactly when no layer's name
equals the argument (case-sensitively), and a `some` result is the first
layer in catalog order whose name equals the argument exactly. -/
theorem get_layer_by_name_spec (caps : Capabilities) (name : String) :
    (get_layer_by_name caps name = none ↔
      ∀ l ∈ caps.layers, l.name ≠ some name)
    ∧ ∀ l, get_layer_by_name caps name = some l →
        l.name = some name ∧
          ∃ pre post, caps.layers = pre ++ l :: post ∧
            ∀ p ∈ pre, p.name ≠ some name :=
  ⟨find_layer_none_iff caps.layers name,
    fun l h => find_layer_some caps.layers name l h⟩

/-- C9 witness: on the demo catalog the lookup of `does_not_exist`
returns `none` (never raises), and looking up `geology` returns the
(first) layer with exactly that name. -/
theorem get_layer_by_name_spec_witness :
    get_layer_by_name demoCaps "does_not_exist" = none
    ∧ (geologyLayer.name = some "geology" ∧
        ∃ pre post, demoCaps.layers = pre ++ geologyLayer :: post ∧
          ∀ p ∈ pre, p.name ≠ some "geology") :=
  ⟨(get_layer_by_name_spec demoCaps "does_not_exist").1.mpr (by decide),
    (get_layer_by_name_spec demoCaps "geology").2 geologyLayer rfl⟩

/-- Case-insensitive containment of the query in one of the three layer
fields, with the abstract treated as the empty string when absent; this
is the match predicate the specification describes. -/
def layer_matches (query : String) (l : Layer) : Bool :=
  py_in (py_str_lower query) (py_str_lower (l.name.getD "")) ||
    py_in (py_str_lower query) (py_str_lower (l.title.getD "")) ||
    py_in (py_str_lower query) (py_str_lower (l.abstract.getD ""))

/-- Helper: the empty string is a substring of everything
(`"" in s` is `True` in Python). -/
theorem py_in_empty (s : String) : py_in "" s = true := by
  show chars_infixOf [] s.data = true
  cases s.data with
  | nil => rfl
  | cons b bs => simp [chars_infixOf, chars_prefixOf]

/-- Helper: the abstract branch of the search loop equals lowering the
absent-defaulted abstract (both give `""` for `None` and `""`). -/
theorem abstract_branch_eq (a : Option String) :
    (if truthy a then py_str_lower (a.getD "") else "") =
      py_str_lower (a.getD "") := by
  cases a with
  | none => rfl
  | some s =>
    by_cases hs : s.isEmpty
    · rw [String.isEmpty_iff] at hs
      subst hs
      rfl
    · simp [truthy, hs]

/-- Helper: on layers whose name and title are present, the search loop
succeeds and returns exactly the filter by the match predicate (with the
query already lowered), preserving order. -/
theorem search_layers_go_ok (ql : String) (ls : List Layer)
    (h : ∀ l ∈ ls, l.name.isSome ∧ l.title.isSome) :
    search_layers_go ql ls = Except.ok (ls.filter (fun l =>
      py_in ql (py_str_lower (l.name.getD "")) ||
        py_in ql (py_str_lower (l.title.getD "")) ||
        py_in ql (py_str_lower (l.abstract.getD "")))) := by
  induction ls with
  | nil => rfl
  | cons l ls ih =>
    obtain ⟨hn, ht⟩ := h l (by simp)
    obtain ⟨n, hn⟩ := Option.isSome_iff_exists.mp hn
    obtain ⟨t, ht⟩ := Option.isSome_iff_exists.mp ht
    rw [search_layers_go, hn, ht]
    show (match search_layers_go ql ls with
      | Except.error e => Except.error e
      | Except.ok rest =>
        Except.ok
          (if py_in ql (py_str_lower n) || py_in ql (py_str_lower t) ||
              py_in ql
                (if truthy l.abstract then py_str_lower (l.abstract.getD "")
                 else "")
           then l :: rest else rest)) = _
    rw [ih (fun x hx => h x (by simp [hx])), abstract_branch_eq]
    simp [List.filter_cons, hn, ht]

/-- C7 counterexample: the claim fails as stated.  The parser can produce
a catalog containing a layer whose `title` is `None` (an empty `Title`
element — see C10); on such a catalog `search_layers` raises
`AttributeError` from `None.lower()` instead of returning the matching
layers, so even the empty query does not return every layer. -/
theorem search_layers_counterexample :
    search_layers ⟨some "T", none, "1.3.0",
        [⟨some "abc", none, none, [], false⟩], [], [], 0⟩ "" =
      Except.error "AttributeError"
    ∧ search_layers ⟨some "T", none, "1.3.0",
        [⟨some "abc", none, none, [], false⟩], [], [], 0⟩ "" ≠
      Except.ok [⟨some "abc", none, none, [], false⟩] := by
  refine ⟨rfl, ?_⟩
  intro h
  rw [show search_layers ⟨some "T", none, "1.3.0",
      [⟨some "abc", none, none, [], false⟩], [], [], 0⟩ "" =
      Except.error "AttributeError" from rfl] at h
  exact Except.noConfusion h

/-- C7 (amended): for every query string and every catalog in which each
layer's name and title are present (names always are in parser-produced
catalogs; titles may be absent when a `Title` element is empty, in which
case `search_layers` instead fails with `AttributeError`), the search
returns exactly those layers whose name, title, or abstract (treated as
the empty string when absent) contains the query as a case-insensitive
substring, preserving the catalog's original order; the empty query
matches every layer. -/
theorem search_layers_spec (caps : Capabilities) (query : String)
    (h : ∀ l ∈ caps.layers, l.name.isSome ∧ l.title.isSome) :
    search_layers caps query =
      Except.ok (caps.layers.filter (layer_matches query))
    ∧ search_layers caps "" = Except.ok caps.layers := by
  constructor
  · exact search_layers_go_ok (py_str_lower query) caps.layers h
  · rw [search_layers,
      show py_str_lower "" = "" from rfl,
      search_layers_go_ok "" caps.layers h]
    simp [py_in_empty]

/-- C7 witness: on the spec's demo catalog, searching `depth` returns
exactly the soil-depth layer and searching `SOIL` matches
case-insensitively. -/
theorem search_layers_spec_witness :
    search_layers demoCaps "depth" = Except.ok [soilLayer]
    ∧ search_layers demoCaps "SOIL" = Except.ok [soilLayer] := by
  refine ⟨?_, ?_⟩
  · rw [(search_layers_spec demoCaps "depth" (by decide)).1]
    exact congrArg Except.ok (by decide)
  · rw [(search_layers_spec demoCaps "SOIL" (by decide)).1]
    exact congrArg Except.ok (by decide)

/-- The inclusion test the parser loop actually applies to a `Layer`
element: its first `Name` child exists and has truthy (non-`None`,
non-empty) text. -/
def layer_included (le : Elem) : Bool :=
  match le.findChild "Name" with
  | some ne => truthy ne.text
  | none => false

/-- Helper: the parser loop is the filter-then-parse of the layer
elements. -/
theorem collect_layers_eq (les : List Elem) :
    collect_layers les = (les.filter layer_included).map parse_layer := by
  induction les with
  | nil => rfl
  | cons le les ih =>
    cases hf : le.findChild "Name" with
    | none => simp [collect_layers, hf, List.filter_cons, layer_included, ih]
    | some ne =>
      by_cases ht : truthy ne.text <;>
        simp [collect_layers, hf, ht, List.filter_cons, layer_included, ih]

/-- C8 counterexample: the claim fails as stated on two points.  A
`Layer` element whose first `Name` child has no text is skipped even
though it does have a (second) `Name` child with non-empty text, because
`find` only inspects the first `Name` child; and a `CRS` child whose
text is empty is dropped from `crs_list`, so `crs_list` does not collect
all `CRS` children. -/
theorem parse_layer_inclusion_counterexample :
    (Elem.mk "Layer" [] none
        [Elem.mk "Name" [] none [],
         Elem.mk "Name" [] (some "real_layer") []]).children.any
        (fun c => c.tag == "Name" && truthy c.text) = true
    ∧ (parse_capabilities
        (Elem.mk "WMS_Capabilities" [] none
          [Elem.mk "Layer" [] none
            [Elem.mk "Name" [] none [],
             Elem.mk "Name" [] (some "real_layer") []]]) "1.3.0" 0).layers
        = []
    ∧ ((Elem.mk "Layer" [] none
        [Elem.mk "Name" [] (some "l1") [],
         Elem.mk "CRS" [] (some "") [],
         Elem.mk "CRS" [] (some "EPSG:4326") []]).children.filter
        (fun c => c.tag = "CRS")).length = 2
    ∧ (parse_layer (Elem.mk "Layer" [] none
        [Elem.mk "Name" [] (some "l1") [],
         Elem.mk "CRS" [] (some "") [],
         Elem.mk "CRS" [] (some "EPSG:4326") []])).crs_list =
      ["EPSG:4326"] := by decide

/-- C8 (amended): a `Layer` XML element contributes an entry to the
parsed layers sequence if and only if its first `wms:Name` child exists
and has non-empty text (other `Name` children are not consulted;
elements failing this are skipped even if they have a `Title`); for each
layer the title falls back to the name exactly when no `Title` element
is present (otherwise it is the first `Title` child's text), `crs_list`
collects the texts of those `CRS` children that have non-empty text, in
document order keeping duplicates, and `queryable` is true if and only
if the `queryable` attribute equals `"1"` (anything else, including
absence, gives false). -/
theorem parse_layer_inclusion_spec (root : Elem) (version : String)
    (now : Int) (le te : Elem) :
    (parse_capabilities root version now).layers =
      ((root.descendants.filter (fun e => e.tag = "Layer")).filter
        layer_included).map parse_layer
    ∧ (le.findChild "Title" = none →
        (parse_layer le).title = (parse_layer le).name)
    ∧ (le.findChild "Title" = some te →
        (parse_layer le).title = te.text)
    ∧ (parse_layer le).crs_list =
        (le.children.filter (fun c => c.tag = "CRS")).filterMap
          (fun c => match c.text with
            | some s => if s = "" then none else some s
            | none => none)
    ∧ ((parse_layer le).queryable = true ↔
        le.getAttr "queryable" "0" = "1") := by
  refine ⟨?_, ?_, ?_, ?_, ?_⟩
  · simp [parse_capabilities, Elem.findAllDesc, collect_layers_eq]
  · intro h
    simp [parse_layer, h]
  · intro h
    simp [parse_layer, h]
  · have hfun : (fun c : Elem => if truthy c.text then c.text else none) =
        (fun c : Elem => match c.text with
          | some s => if s = "" then none else some s
          | none => none) := by
      funext c
      cases hc : c.text with
      | none => rfl
      | some s =>
        by_cases hs : s.isEmpty
        · rw [String.isEmpty_iff] at hs
          subst hs
          rfl
        · have hs' : ¬s = "" := fun h => hs (by subst h; rfl)
          simp [truthy, hs, hs']
    simp [parse_layer, Elem.findChildren, hfun]
  · simp [parse_layer]

/-- C8 witness: the amended theorem applied at a concrete document: a
layer with name `soil_depth`, no `Title` (title falls back to the name),
a duplicated `CRS` text kept twice, and `queryable="1"`; a second layer
element exercises the explicit-`Title` branch. -/
theorem parse_layer_inclusion_spec_witness :
    (parse_capabilities
        (Elem.mk "WMS_Capabilities" [] none
          [Elem.mk "Capability" [] none
            [Elem.mk "Layer" [("queryable", "1")] none
              [Elem.mk "Name" [] (some "soil_depth") [],
               Elem.mk "CRS" [] (some "EPSG:4326") [],
               Elem.mk "CRS" [] (some "EPSG:4326") []]]]) "1.3.0" 0).layers
      = [⟨some "soil_depth", some "soil_depth", none,
          ["EPSG:4326", "EPSG:4326"], true⟩]
    ∧ (parse_layer (Elem.mk "Layer" [] none
        [Elem.mk "Name" [] (some "n") [],
         Elem.mk "Title" [] (some "Ti") []])).title = some "Ti" := by
  have h1 := parse_layer_inclusion_spec
    (Elem.mk "WMS_Capabilities" [] none
      [Elem.mk "Capability" [] none
        [Elem.mk "Layer" [("queryable", "1")] none
          [Elem.mk "Name" [] (some "soil_depth") [],
           Elem.mk "CRS" [] (some "EPSG:4326") [],
           Elem.mk "CRS" [] (some "EPSG:4326") []]]]) "1.3.0" 0
    (Elem.mk "Layer" [("queryable", "1")] none
      [Elem.mk "Name" [] (some "soil_depth") [],
       Elem.mk "CRS" [] (some "EPSG:4326") [],
       Elem.mk "CRS" [] (some "EPSG:4326") []])
    (Elem.mk "X" [] none [])
  have h2 := parse_layer_inclusion_spec
    (Elem.mk "WMS_Capabilities" [] none [])
    "1.3.0" 0
    (Elem.mk "Layer" [] none
      [Elem.mk "Name" [] (some "n") [],
       Elem.mk "Title" [] (some "Ti") []])
    (Elem.mk "Title" [] (some "Ti") [])
  refine ⟨?_, h2.2.2.1 rfl⟩
  rw [h1.1]
  decide

/-- C10: when a `Title` element is present but has no text, the parser
records the title as `None`: the service title does not fall back to
`"BGS Soil Data WMS"` and a layer's title does not fall back to the
layer's name (those defaults apply only when the `Title` element is
missing entirely). -/
theorem empty_title_records_none (root se te le te' : Elem)
    (version : String) (now : Int) :
    (root.findDesc "Service" = some se → se.findChild "Title" = some te →
      te.text = none → (parse_capabilities root version now).title = none)
    ∧ (le.findChild "Title" = some te' → te'.text = none →
        (parse_layer le).title = none) := by
  constructor
  · intro h1 h2 h3
    simp [parse_capabilities, h1, h2, h3]
  · intro h1 h2
    simp [parse_layer, h1, h2]

/-- C10 witness: a capabilities document whose `Service` has an empty
`Title`, and a layer element with a `Name` and an empty `Title`, both
yield `title = none` rather than a fallback. -/
theorem empty_title_records_none_witness :
    (parse_capabilities
        (Elem.mk "WMS_Capabilities" [] none
          [Elem.mk "Service" [] none [Elem.mk "Title" [] none []]])
        "1.3.0" 0).title = none
    ∧ (parse_layer (Elem.mk "Layer" [] none
        [Elem.mk "Name" [] (some "n1") [],
         Elem.mk "Title" [] none []])).title = none := by
  have h := empty_title_records_none
    (Elem.mk "WMS_Capabilities" [] none
      [Elem.mk "Service" [] none [Elem.mk "Title" [] none []]])
    (Elem.mk "Service" [] none [Elem.mk "Title" [] none []])
    (Elem.mk "Title" [] none [])
    (Elem.mk "Layer" [] none
      [Elem.mk "Name" [] (some "n1") [], Elem.mk "Title" [] none []])
    (Elem.mk "Title" [] none []) "1.3.0" 0
  exact ⟨h.1 rfl rfl rfl, h.2 rfl rfl⟩

end WMS
